import Mathlib

/-!
Shallow embedding of the FilamentDehydrator control firmware
(`src/drybox/drybox.py`, `src/drybox/hardware.py`, `src/microapp/microapp.py`,
`src/pico/cycle.py`) together with theorems settling the specification claims.

Temperatures, humidities and slopes are modelled as rationals; monotonic
millisecond tick counters as naturals, with MicroPython's wraparound-safe
signed difference `ticks_diff` modelled exactly over the integers.
Python exceptions are modelled with `Except`; `None` with `Option`.
-/

namespace Dehydrator

/-- MicroPython tick counters wrap at `2^30`. -/
def TICKS_PERIOD : Int := 2 ^ 30

/-- Source `utime.ticks_diff(end, start)`: wraparound-safe signed difference,
`((end - start + 2^29) % 2^30) - 2^29` with Python's nonnegative `%`. -/
def ticks_diff (tEnd tStart : Int) : Int :=
  (tEnd - tStart + 2 ^ 29) % TICKS_PERIOD - 2 ^ 29

/-- Source `drybox.did_timeout(ticks_start, ticks_end, timeout_ticks)`:
`utime.ticks_diff(ticks_end, ticks_start) > timeout_ticks`. -/
def did_timeout (ticksStart ticksEnd timeoutTicks : Int) : Bool :=
  ticks_diff ticksEnd ticksStart > timeoutTicks



/-! ### Model of `hardware.Heater`

A digital output pin plus a cached `is_on` flag.  `Pin.off()` is called in
`__init__`, so `pinOn` and `isOn` start out `false` and stay in sync. -/

structure Heater where
  pinOn : Bool
  isOn : Bool
deriving DecidableEq, Repr

namespace Heater

/-- Source `Heater.on(force=False)`: no-op when already on, else drive the pin high.
(`on` is a reserved token in Lean, hence the primed name.) -/
def on' (h : Heater) : Heater :=
  if h.isOn then h else { pinOn := true, isOn := true }

/-- Source `Heater.off(force=False)`: no-op when already off, else drive the pin low. -/
def off (h : Heater) : Heater :=
  if !h.isOn then h else { pinOn := false, isOn := false }

end Heater

/-! ### Model of `hardware.TemperatureController`

Wraps a `Heater` and a temperature source (the hygrometer's cached reading,
an `Option ℚ`).  The Pico's on-board thermistor reading is an ADC conversion
and therefore always available (a plain `ℚ`). -/

structure TemperatureController where
  heater : Heater
  /-- Source `_target_temperature`; `None` means no active target. -/
  targetTemperature : Option ℚ
  /-- Source `temp_hysteresis` (constructor argument `hysteresis_c`). -/
  tempHysteresis : ℚ
  /-- Source `max_temperature`, default `UNSAFE_TEMPERATURE = 70`. -/
  maxTemperature : ℚ
  /-- Source `state` string: `"idle"`, `"waiting for temperature"` or `"running"`. -/
  state : String
deriving DecidableEq, Repr

namespace TemperatureController

/-- Source `UNSAFE_PICO_TEMPERATURE = 85` (from the Pico datasheet). -/
def UNSAFE_PICO_TEMPERATURE : ℚ := 85

/-- Source `TemperatureController.off()`: clears the setpoint.  Note: it touches
only `_target_temperature`, never the wrapped heater's output pin. -/
def off (tc : TemperatureController) : TemperatureController :=
  { tc with targetTemperature := none }

/-- Source `TemperatureController.set_temperature(temp)`. -/
def set_temperature (tc : TemperatureController) (temp : ℚ) :
    TemperatureController :=
  { tc with targetTemperature := some temp }

/-- Source `TemperatureController.check(self)` as called from `run_loop`:
raises `UnsafeTemperature` when the Pico thermistor exceeds 85 °C or the
controller's own reading exceeds `max_temperature`; in either case it first
calls `heater.off()` on each controller in `heaters` — which is
`TemperatureController.off`, i.e. it only clears the setpoint.  An error
carries the controller state at the moment of the raise. -/
def check (picoTemp : ℚ) (ownTemp : Option ℚ) (tc : TemperatureController) :
    Except (String × TemperatureController) TemperatureController :=
  if picoTemp > UNSAFE_PICO_TEMPERATURE then
    .error ("Pico exceeded it's safe operating temperature", tc.off)
  else
    match ownTemp with
    | some t =>
      if t > tc.maxTemperature then
        .error ("a heater went beyond its configured max temperature", tc.off)
      else .ok tc
    | none => .ok tc

/-- Source `TemperatureController.run_loop()`: safety check, then the hysteresis
control decision.  `ownTemp` is `self.get_temperature()` (the hygrometer's
cached reading).  When the setpoint or the reading is absent, the code only
sets `state = "waiting for temperature"` — the heater is left untouched. -/
def run_loop (picoTemp : ℚ) (ownTemp : Option ℚ) (tc : TemperatureController) :
    Except (String × TemperatureController) TemperatureController :=
  match check picoTemp ownTemp tc with
  | .error e => .error e
  | .ok tc =>
    match tc.targetTemperature, ownTemp with
    | some target, some temp =>
      if temp < target - tc.tempHysteresis then
        .ok { tc with heater := tc.heater.on' }
      else if temp > target + tc.tempHysteresis then
        .ok { tc with heater := tc.heater.off }
      else
        .ok tc
    | _, _ => .ok { tc with state := "waiting for temperature" }

/-- Run `run_loop` over a list of readings, collecting the heater pin state
observed after each step (used for the hysteresis scenario). -/
def runSeq (picoTemp : ℚ) :
    List ℚ → TemperatureController →
    Except (String × TemperatureController) (List Bool)
  | [], _ => .ok []
  | t :: ts, tc =>
    match run_loop picoTemp (some t) tc with
    | .error e => .error e
    | .ok tc' =>
      match runSeq picoTemp ts tc' with
      | .error e => .error e
      | .ok rest => .ok (tc'.heater.pinOn :: rest)

end TemperatureController

/-! ### Model of `pico.cycle.SlowCycle`

Slow duty cycler.  Modes are the strings `ON | OFF | RUNNING | CANCELLED`;
`_pin_state` only ever holds `ON` or `OFF`, so it is modelled as a `Bool`
(`true` = `ON`). -/

inductive CycleMode where
  | on | off | running | cancelled
deriving DecidableEq, Repr

structure SlowCycle where
  mode : CycleMode
  /-- the wrapped output pin's level -/
  pinOn : Bool
  /-- Source `_pin_state` (`true` = `SlowCycle.ON`) -/
  pinState : Bool
  cyclePercent : ℚ
  cyclePeriodS : ℚ
  checkIntervalMs : ℕ
  onTimeMs : ℤ
  offTimeMs : ℤ
deriving DecidableEq, Repr

namespace SlowCycle

/-- Source `SlowCycle.set_mode(mode)`: raises `ValueError` unless the requested mode
is `ON`, `OFF` or `RUNNING`; otherwise stores it unconditionally — the
current mode (including `CANCELLED`) is never consulted. -/
def set_mode (c : SlowCycle) (mode : CycleMode) : Except String SlowCycle :=
  if mode = .on ∨ mode = .off ∨ mode = .running then
    .ok { c with mode := mode }
  else
    .error "Invalid cycle mode"

/-- Source `SlowCycle.on()` (the print depends on `_pin_state` but has no state
effect, so `on()` reduces to `set_mode(ON)`, which always succeeds). -/
def on' (c : SlowCycle) : SlowCycle := { c with mode := .on }

/-- Source `SlowCycle.off()` = `set_mode(OFF)`. -/
def off (c : SlowCycle) : SlowCycle := { c with mode := .off }

/-- Source `SlowCycle.cycle()` = `set_mode(RUNNING)`. -/
def cycle (c : SlowCycle) : SlowCycle := { c with mode := .running }

/-- Source `SlowCycle.shut_down()`: set the terminal mode and drive the pin off. -/
def shut_down (c : SlowCycle) : SlowCycle :=
  { c with mode := .cancelled, pinOn := false }

/-- One iteration of `SlowCycle.run()`'s `while` loop: `none` when the loop
guard `self.mode != SlowCycle.CANCELLED` fails (the coroutine returns),
otherwise the updated state together with the sleep duration in ms. -/
def runStep (c : SlowCycle) : Option (SlowCycle × ℤ) :=
  if c.mode = .cancelled then none
  else if c.mode = .on then
    some ({ c with pinOn := true, pinState := true }, (c.checkIntervalMs : ℤ))
  else if c.mode = .off then
    some ({ c with pinOn := false, pinState := false }, (c.checkIntervalMs : ℤ))
  else if c.mode = .running ∧ c.pinState = false then
    some ({ c with pinOn := true, pinState := true }, c.onTimeMs)
  else
    some ({ c with pinOn := false, pinState := false }, c.offTimeMs)

end SlowCycle

/-! ### Model of `drybox.DryBox`

The chamber state machine.  The exhaust fan is a raw output pin; the
recirculation fan is a `SlowCycle`; the heater is a
`TemperatureController`.  `os.system("sudo shutdown -h now")` is modelled
by counting shutdown requests. -/

structure DryBoxState where
  /-- Source `Status` code (`STARTING = 1`, `RUNNING = 10`, ...). -/
  state : ℤ
  heater : TemperatureController
  recirculationFan : SlowCycle
  exhaustFanOn : Bool
  screen : Option Unit
  unsafeTemperature : ℚ
  targetHumidity : ℚ
  targetTemperature : ℚ
  /-- number of times the host-shutdown capability has been invoked -/
  shutdownRequests : ℕ
deriving Repr

namespace DryBoxState

/-- Source `DryBox.panic()` up to the final `raise RuntimeError` (the returned
state is the one in force when the exception is raised):
`heater.off()` (i.e. `TemperatureController.off`, which only clears the
setpoint), exhaust pin on, `recirculation_fan.on()` (a `SlowCycle` mode
request), then one host-shutdown request. -/
def panic (db : DryBoxState) : DryBoxState :=
  { db with
    heater := db.heater.off
    exhaustFanOn := true
    recirculationFan := db.recirculationFan.on'
    shutdownRequests := db.shutdownRequests + 1 }

/-- Source `DryBox.vent()`. -/
def vent (db : DryBoxState) : DryBoxState :=
  { db with
    state := 12
    heater := db.heater.off
    recirculationFan := db.recirculationFan.off
    exhaustFanOn := true }

/-- Source `DryBox.idle()`. -/
def idle (db : DryBoxState) : DryBoxState :=
  { db with
    state := 10
    heater := db.heater.off
    recirculationFan := db.recirculationFan.off
    exhaustFanOn := false }

end DryBoxState

/-! ### Model of `microapp.MicroApp`

Only the cancellation bookkeeping is relevant to the claims: the
`shutdown` flag, the per-task cancelled flags of `_scheduled_funcs`, and
how often `cancel_callback` has been invoked. -/

structure MicroAppState where
  shutdown : Bool
  /-- one entry per registered periodic task: `true` once `task.cancel()`
  has been called on it -/
  tasksCancelled : List Bool
  /-- whether a `cancel_callback` was supplied to the constructor -/
  hasCancelCallback : Bool
  /-- number of times `cancel_callback` has been invoked -/
  cancelCallbackCalls : ℕ
deriving DecidableEq, Repr

namespace MicroAppState

/-- Source `MicroApp.cancel()`: set `shutdown`, cancel every registered task, then
invoke `cancel_callback` (if present) — unconditionally, on every call. -/
def cancel (s : MicroAppState) : MicroAppState :=
  { s with
    shutdown := true
    tasksCancelled := s.tasksCancelled.map fun _ => true
    cancelCallbackCalls :=
      s.cancelCallbackCalls + if s.hasCancelCallback then 1 else 0 }

/-- The tail of `MicroApp._main`: when the `while not self.shutdown` loop
exits because `shutdown` was set by `cancel()` (not by the main function
returning `CANCEL`, which `return`s before this point), `cancel_callback`
is invoked once more. -/
def mainFinish (s : MicroAppState) : MicroAppState :=
  { s with
    cancelCallbackCalls :=
      s.cancelCallbackCalls + if s.hasCancelCallback then 1 else 0 }

end MicroAppState

/-! ### Configuration (`drybox.validate_config` and the constructors' reads)

A TOML value is a string, a number, or a table. -/

inductive Toml where
  | str : String → Toml
  | num : ℚ → Toml
  | table : List (String × Toml) → Toml
deriving Repr, BEq

namespace Toml

/-- Source `key in config` / `config[key]` on a table; `none` when the key is
absent or the value is not a table. -/
def find : Toml → String → Option Toml
  | table kvs, key => kvs.lookup key
  | _, _ => none

/-- Source `config[key]` where a missing key raises `KeyError`. -/
def getKey (t : Toml) (key : String) : Except String Toml :=
  match t.find key with
  | some v => .ok v
  | none => .error ("KeyError: " ++ key)

end Toml

/-- Python's `str.split(sep)` for a single-character separator, over the
string's character list (empty parts are kept, exactly as in Python). -/
def splitOnChar (sep : Char) : List Char → List (List Char)
  | [] => [[]]
  | c :: cs =>
    match splitOnChar sep cs with
    | [] => [[c]]
    | r :: rs => if c = sep then [] :: r :: rs else (c :: r) :: rs

/-- The `errors` list built by `validate_config` from `required_keys`:
a message per missing section and per missing subkey. -/
def requiredKeyErrors (config : Toml) : List String :=
  let requiredKeys :=
    [("hardware",
      ["heater_pin", "hygrometer_pin", "recirculation_fan_pin",
       "exhaust_fan_pin"]),
     ("pid", ["target_humidity", "dehumidify_temperature"])]
  requiredKeys.foldl
    (fun errors kv =>
      match config.find kv.1 with
      | none => errors ++ ["Config file is missing required key: " ++ kv.1]
      | some sub =>
        errors ++ kv.2.filterMap fun subkey =>
          if (sub.find subkey).isNone then
            some ("Config file is missing required subkey: " ++ kv.1 ++ "."
              ++ subkey)
          else none)
    []

/-- Source `drybox.validate_config(config)`: unwrap an optional `drybox` section;
raise when `version` is missing or does not split to `['1','0a']`
(a non-string version raises `AttributeError` at `.split`); then build the
`errors` list for the required keys — but, exactly as the source does,
never raise it: the config is returned regardless. -/
def validate_config (config0 : Toml) : Except String Toml :=
  let config := match config0.find "drybox" with
    | some c => c
    | none => config0
  match config.find "version" with
  | none =>
    .error "Config file is missing a version. I won't know how to read it."
  | some v =>
    match v with
    | .str s =>
      if splitOnChar '.' s.data ≠ [['1'], ['0', 'a']] then
        .error "Config file version is not supported. I only support 1.0a."
      else
        let _errors := requiredKeyErrors config
        .ok config
    | _ => .error "AttributeError: split"

/-- The config-dictionary reads of `DryBox.__init__` (lines 108–110):
`config['unsafe_temperature']`, `config['target_humidity']`,
`config['target_temperature']`; each missing key raises `KeyError`. -/
def dryBoxInitReads (config : Toml) : Except String (Toml × Toml × Toml) :=
  match config.getKey "unsafe_temperature" with
  | .error e => .error e
  | .ok u =>
    match config.getKey "target_humidity" with
    | .error e => .error e
    | .ok h =>
      match config.getKey "target_temperature" with
      | .error e => .error e
      | .ok t => .ok (u, h, t)

/-- The config-dictionary reads of `Dehydrator.__init__` (lines 255–258):
`config['controls']`, then `control_config['timeout_s']`,
`['sample_rate']` and `['exhaust_duration_s']`; each missing key raises
`KeyError` (the remaining parameters use `.get` with defaults). -/
def dehydratorInitReads (config : Toml) :
    Except String (Toml × Toml × Toml) :=
  match config.getKey "controls" with
  | .error e => .error e
  | .ok controls =>
    match controls.getKey "timeout_s" with
    | .error e => .error e
    | .ok t =>
      match controls.getKey "sample_rate" with
      | .error e => .error e
      | .ok r =>
        match controls.getKey "exhaust_duration_s" with
        | .error e => .error e
        | .ok ex => .ok (t, r, ex)

/-! ### Model of `Dehydrator.preheat`

The polling loop of `Dehydrator.preheat` (drybox.py lines 355–373).
`start_time = current_time = utime.ticks_ms()` before the loop, and —
exactly as in the source — `current_time` is never reassigned inside the
loop, so the timeout guard always compares the two initial tick values.
The loop is modelled with fuel (`none` = the given number of iterations
did not suffice for the loop to return); `temps i` is the value of
`self.temp` read in iteration `i` (the source would raise `TypeError` on a
`None` reading, so the reading stream is taken as total here). -/

def preheatLoop (targetTemp hysteresis : ℚ) (timeoutMs : ℤ)
    (settledDelaySamples : ℕ) (temps : ℕ → ℚ) :
    ℕ → ℤ → ℤ → ℕ → ℕ → Option Bool
  | 0, _, _, _, _ => none
  | fuel + 1, currentTime, startTime, i, settledSamples =>
    let currentTemp := temps i
    if ticks_diff currentTime startTime ≥ timeoutMs then
      some false
    else if targetTemp - currentTemp > hysteresis then
      preheatLoop targetTemp hysteresis timeoutMs settledDelaySamples temps
        fuel currentTime startTime (i + 1) 0
    else if currentTemp - targetTemp > hysteresis then
      preheatLoop targetTemp hysteresis timeoutMs settledDelaySamples temps
        fuel currentTime startTime (i + 1) 0
    else if settledSamples < settledDelaySamples then
      preheatLoop targetTemp hysteresis timeoutMs settledDelaySamples temps
        fuel currentTime startTime (i + 1) (settledSamples + 1)
    else
      some true

/-- Source `Dehydrator.preheat`: validate the starting reading (`≤ 0` or `≥ 100`
raises `ValueError`), then run the polling loop with
`start_time = current_time = t0`.  `timeoutMs` is the already-converted
`int(round(timeout_s))`; `settledDelaySamples` is
`sensor_settle_duration_s * sample_rate`. -/
def preheat (targetTemp hysteresis : ℚ) (timeoutMs : ℤ)
    (settledDelaySamples : ℕ) (temps : ℕ → ℚ) (startTemp : ℚ) (t0 : ℤ)
    (fuel : ℕ) : Except String (Option Bool) :=
  if startTemp ≤ 0 ∨ startTemp ≥ 100 then
    .error "temperature seems invalid"
  else
    .ok (preheatLoop targetTemp hysteresis timeoutMs settledDelaySamples
      temps fuel t0 t0 0 0)

/-! ### Model of `Dehydrator.absorb_moisture` -/

/-- Source `get_slope(readings)` = `(readings[-1] - readings[0]) / N` where
`N = self._num_measurements`.  `none` models the exception raised when the
list is empty (`IndexError`) or an endpoint is `None` (`TypeError`). -/
def get_slope (numMeasurements : ℚ) (readings : List (Option ℚ)) :
    Option ℚ :=
  match readings.head?, readings.getLast? with
  | some (some first), some (some last) =>
    some ((last - first) / numMeasurements)
  | _, _ => none

/-- The priming loop: `humidity_readings = [0]*N` followed by
`humidity_readings[i] = self.humidity` for each `i < N`.  The raw cached
reading — `None` included — is stored without any validity check. -/
def primeWindow (n : ℕ) (hum : ℕ → Option ℚ) : List (Option ℚ) :=
  (List.range n).map hum

/-- The window update inside the sampling loop: only executed for a valid
(non-`None`) reading, in which case `pop(0)` drops the oldest sample and
`append` pushes the new one.  (`pop(0)` on an empty list would raise; the
window is never empty when `N ≥ 1`.) -/
def updateWindow (w : List (Option ℚ)) (humidity : Option ℚ) :
    List (Option ℚ) :=
  match humidity with
  | some v => w.tail ++ [some v]
  | none => w

/-- The sampling loop of `absorb_moisture` (drybox.py lines 401–413):
`while current_slope > target_slope and not did_timeout(start_time,
current_time, timeout_ticks)`.  Each iteration reads `hum i`; a valid
reading updates the window and recomputes the slope (`none` models the
`TypeError` were the recomputed slope to hit a `None` endpoint);
`current_time` is refreshed from the tick stream at the end of the body.
When the guard fails the loop returns `humidity_readings[-1]`
(`w.getLast?`, of type `Option (Option ℚ)`: the outer layer is the fuel /
crash marker, the inner the Python value). -/
def absorbLoop (targetSlope numMeasurements : ℚ) (timeoutTicks : ℤ)
    (startTime : ℤ) (hum : ℕ → Option ℚ) (ticks : ℕ → ℤ) :
    ℕ → List (Option ℚ) → ℚ → ℤ → ℕ → ℕ → Option (Option ℚ)
  | 0, _, _, _, _, _ => none
  | fuel + 1, w, currentSlope, currentTime, i, k =>
    if currentSlope > targetSlope ∧
        did_timeout startTime currentTime timeoutTicks = false then
      match hum i with
      | some v =>
        let w' := updateWindow w (some v)
        match get_slope numMeasurements w' with
        | some s' =>
          absorbLoop targetSlope numMeasurements timeoutTicks startTime hum
            ticks fuel w' s' (ticks k) (i + 1) (k + 1)
        | none => none
      | none =>
        absorbLoop targetSlope numMeasurements timeoutTicks startTime hum
          ticks fuel w currentSlope (ticks k) (i + 1) (k + 1)
    else
      w.getLast?

/-- Source `Dehydrator.absorb_moisture(timeout_s)`: record `start_time` (`ticks 0`),
prime the window with `n = _num_measurements` readings, compute
`starting_slope` and `target_slope = slope_threshold * starting_slope`,
refresh `current_time` (`ticks 1`), then run the sampling loop (whose
in-body tick reads are `ticks 2`, `ticks 3`, …; its humidity reads continue
at index `n`).  `timeoutTicks` is `timeout_s * 1000`. -/
def absorb_moisture (n : ℕ) (slopeThreshold : ℚ) (timeoutTicks : ℤ)
    (hum : ℕ → Option ℚ) (ticks : ℕ → ℤ) (fuel : ℕ) : Option (Option ℚ) :=
  let startTime := ticks 0
  let w := primeWindow n hum
  match get_slope (n : ℚ) w with
  | none => none
  | some startingSlope =>
    let targetSlope := slopeThreshold * startingSlope
    absorbLoop targetSlope (n : ℚ) timeoutTicks startTime hum ticks fuel w
      startingSlope (ticks 1) n 2

/-! ## Concrete fixtures used by the theorems -/

/-- A controller whose heater output is currently on and whose setpoint has
been cleared (the state `TemperatureController.off` leaves behind). -/
def tcHeaterOnNoTarget : TemperatureController :=
  { heater := { pinOn := true, isOn := true }
    targetTemperature := none
    tempHysteresis := 2
    maxTemperature := 70
    state := "running" }

/-- A controller whose heater output is on, with an active setpoint of 50 °C. -/
def tcHeaterOnWithTarget : TemperatureController :=
  { heater := { pinOn := true, isOn := true }
    targetTemperature := some 50
    tempHysteresis := 2
    maxTemperature := 70
    state := "running" }

/-- The hysteresis scenario controller: target 50 °C, hysteresis 2 °C,
heater initially off. -/
def tcScenario : TemperatureController :=
  { heater := { pinOn := false, isOn := false }
    targetTemperature := some 50
    tempHysteresis := 2
    maxTemperature := 70
    state := "running" }

/-- The recirculation fan as `build` constructs it: duty 0.1, period 180 s,
hence `_on_time_ms = 18000` and `_off_time_ms = 162000`. -/
def fanFixture : SlowCycle :=
  { mode := .off
    pinOn := false
    pinState := false
    cyclePercent := 1 / 10
    cyclePeriodS := 180
    checkIntervalMs := 250
    onTimeMs := 18000
    offTimeMs := 162000 }

/-- A drybox in the Heating state whose heater output pin is energized —
exactly the situation in which `check` fires `panic()`. -/
def dbHeaterOn : DryBoxState :=
  { state := 11
    heater := tcHeaterOnWithTarget
    recirculationFan := fanFixture
    exhaustFanOn := false
    screen := none
    unsafeTemperature := 70
    targetHumidity := 20
    targetTemperature := 50
    shutdownRequests := 0 }

/-- Humidity stream for the absorption scenario: priming reads
10, 12, 14, 16, 18, then the further readings are 18 forever. -/
def humScenario : ℕ → Option ℚ := fun i =>
  some (([10, 12, 14, 16, 18, 18, 18, 18] : List ℚ).getD i 18)

/-- Tick stream for the absorption scenario: 100 ms between reads, far from
the 3 600 000 ms timeout. -/
def ticksScenario : ℕ → ℤ := fun k => 100 * k

/-- A humidity stream whose second priming read fails (the sensor caches
`None` after a failed `measure()`). -/
def humBad : ℕ → Option ℚ := fun i => if i = 1 then none else some 10

/-- The C7 / C10 failing input: version valid, every required section and
subkey missing — `validate_config` accepts it. -/
def configMissingKeys : Toml := .table [("version", .str "1.0a")]

/-- The `MicroApp` of `DryBox.build_microapp`: a cleanup callback
(`turn_off_everything`) and several registered periodic tasks, none
cancelled yet. -/
def appFixture : MicroAppState :=
  { shutdown := false
    tasksCancelled := [false, false, false, false]
    hasCancelCallback := true
    cancelCallbackCalls := 0 }

/-- C10: a config accepted by `validate_config` (version `"1.0a"`, full
`hardware` and `pid` sections, no missing-key errors) on which both
constructors still raise `KeyError`. -/
def goodConfigFull : Toml :=
  .table [("version", .str "1.0a"),
    ("hardware", .table [("heater_pin", .num 16), ("hygrometer_pin", .num 28),
      ("recirculation_fan_pin", .num 14), ("exhaust_fan_pin", .num 15)]),
    ("pid", .table [("target_humidity", .num 10),
      ("dehumidify_temperature", .num 60)])]

/-- Whether a modelled Python call raises (`Except.error`). -/
def exceptFails {α : Type} : Except String α → Bool
  | .error _ => true
  | .ok _ => false

/-! ## Claim theorems -/

theorem ticks_diff_self (t : Int) : ticks_diff t t = 0 := by
  simp [ticks_diff, TICKS_PERIOD]

/-- C1: `DryBox.panic()` does issue the exhaust-on, recirculation-on and
host-shutdown commands, but its `heater.off()` call is
`TemperatureController.off`, which only clears the setpoint: the wrapped
heater (pin included) is returned unchanged by every `panic()` call, so a
heater that was physically on stays on — the claim's "heater output is off"
fails at the failing input `dbHeaterOn`. -/
theorem C1_panic_heater_pin (db : DryBoxState) :
    (db.panic).heater.heater = db.heater.heater ∧
    (db.panic).heater.targetTemperature = none ∧
    (db.panic).exhaustFanOn = true ∧
    (db.panic).recirculationFan.mode = CycleMode.on ∧
    (db.panic).shutdownRequests = db.shutdownRequests + 1 ∧
    (dbHeaterOn.panic).heater.heater.pinOn = true :=
  ⟨rfl, rfl, rfl, rfl, rfl, rfl⟩

/-- C2: a `run_loop` step with the setpoint absent, or with no temperature
reading, sets `state = "waiting for temperature"` and leaves the heater
output exactly as it was — it does not force or keep the heater off: at
both failing inputs the heater output pin remains energized. -/
theorem C2_run_loop_waiting_keeps_heater :
    TemperatureController.run_loop 30 (some 30) tcHeaterOnNoTarget =
      .ok { tcHeaterOnNoTarget with state := "waiting for temperature" } ∧
    TemperatureController.run_loop 30 none tcHeaterOnWithTarget =
      .ok { tcHeaterOnWithTarget with state := "waiting for temperature" } ∧
    ({ tcHeaterOnNoTarget with
        state := "waiting for temperature" }).heater.pinOn = true ∧
    ({ tcHeaterOnWithTarget with
        state := "waiting for temperature" }).heater.pinOn = true := by
  refine ⟨?_, ?_, rfl, rfl⟩ <;> rfl

/-- C3 counterexample: on the claim's own scenario (target 50, hysteresis 2,
readings 45, 47, 49, 51, 53, 49, heater initially off, safe temperatures)
the heater pin after each step is on, on, on, **on**, off, off: at the
reading 51 the heater is *not* turned off — 51 lies inside the dead band
`[48, 52]` (turn-off requires `t > s + h = 52`), so the claimed trace
"off at 51" is false on the code. -/
theorem C3_hysteresis_scenario_counterexample :
    TemperatureController.runSeq 30 [45, 47, 49, 51, 53, 49] tcScenario =
      .ok [true, true, true, true, false, false] ∧
    TemperatureController.runSeq 30 [45, 47, 49, 51, 53, 49] tcScenario ≠
      .ok [true, true, true, false, false, false] := by
  have h : TemperatureController.runSeq 30 [45, 47, 49, 51, 53, 49]
      tcScenario = .ok [true, true, true, true, false, false] := by
    norm_num [TemperatureController.runSeq, TemperatureController.run_loop,
      TemperatureController.check,
      TemperatureController.UNSAFE_PICO_TEMPERATURE, tcScenario,
      Heater.on', Heater.off]
  refine ⟨h, ?_⟩
  rw [h]
  intro hcontra
  have := (Except.ok.inj hcontra)
  simp at this

/-- C3 (amended): with an active setpoint `s`, hysteresis `h` and a reading
`t` (within both safety ceilings, so the preceding safety check passes), a
`run_loop` step turns the heater on iff `t < s − h`, turns it off iff
`t > s + h`, and leaves the heater unchanged when `s − h ≤ t ≤ s + h`; on
the scenario (target 50, hysteresis 2, readings 45, 47, 49, 51, 53, 49) the
heater is on at 45 and 47, unchanged (still on) at 49 **and at 51** (both
in the dead band), off at 53, and unchanged (off) at the final 49. -/
theorem C3_hysteresis_band (tc : TemperatureController) (pico s t : ℚ)
    (htarget : tc.targetTemperature = some s) (hpico : pico ≤ 85)
    (hsafe : t ≤ tc.maxTemperature) :
    TemperatureController.run_loop pico (some t) tc =
      .ok (if t < s - tc.tempHysteresis then
          { tc with heater := tc.heater.on' }
        else if t > s + tc.tempHysteresis then
          { tc with heater := tc.heater.off }
        else tc) ∧
    (tc.heater.pinOn = tc.heater.isOn →
      ∀ tc', TemperatureController.run_loop pico (some t) tc = .ok tc' →
        tc'.heater.pinOn =
          (if t < s - tc.tempHysteresis then true
           else if t > s + tc.tempHysteresis then false
           else tc.heater.pinOn)) ∧
    TemperatureController.runSeq 30 [45, 47, 49, 51, 53, 49] tcScenario =
      .ok [true, true, true, true, false, false] := by
  have hnp : ¬ pico > (85 : ℚ) := not_lt.mpr hpico
  have hnt : ¬ t > tc.maxTemperature := not_lt.mpr hsafe
  have hcheck : TemperatureController.check pico (some t) tc = .ok tc := by
    simp [TemperatureController.check,
      TemperatureController.UNSAFE_PICO_TEMPERATURE, hnp, hnt]
  have hrun : TemperatureController.run_loop pico (some t) tc =
      .ok (if t < s - tc.tempHysteresis then
          { tc with heater := tc.heater.on' }
        else if t > s + tc.tempHysteresis then
          { tc with heater := tc.heater.off }
        else tc) := by
    simp only [TemperatureController.run_loop, hcheck, htarget]
    split_ifs <;> rfl
  refine ⟨hrun, ?_, ?_⟩
  · intro hsync tc' h
    rw [hrun] at h
    have h' := Except.ok.inj h
    subst h'
    split_ifs with h1 h2
    · cases hOn : tc.heater.isOn <;> simp [Heater.on', hOn, hsync]
    · cases hOn : tc.heater.isOn <;> simp [Heater.off, hOn, hsync]
    · rfl
  · norm_num [TemperatureController.runSeq, TemperatureController.run_loop,
      TemperatureController.check,
      TemperatureController.UNSAFE_PICO_TEMPERATURE, tcScenario,
      Heater.on', Heater.off]

/-- C3 witness: at target 50, hysteresis 2, reading 45 (safe temperatures)
the theorem's hypotheses hold and the step turns the heater on. -/
theorem C3_hysteresis_band_witness :
    TemperatureController.run_loop 30 (some 45) tcScenario =
      .ok { tcScenario with heater := tcScenario.heater.on' } := by
  have h := (C3_hysteresis_band tcScenario 30 50 45 rfl (by norm_num)
    (by norm_num [tcScenario])).1
  rw [h]
  norm_num [tcScenario]

/-- C4: the preheat polling loop can never report a timeout.  Because
`current_time` is never refreshed inside the loop, the guard compares the
two initial (equal) tick values, whose wraparound-safe difference is `0`;
with any positive `timeout_ms` the loop therefore never returns `False` —
and on the claim's scenario (timeout 5000 ms, readings that never enter the
band) it never returns at all, for any number of iterations, rather than
failing at or just after 5000 ms. -/
theorem C4_preheat_never_times_out :
    (∀ (targetTemp hysteresis : ℚ) (timeoutMs : ℤ)
      (settledDelaySamples : ℕ) (temps : ℕ → ℚ) (t0 : ℤ)
      (fuel i settled : ℕ), 0 < timeoutMs →
      preheatLoop targetTemp hysteresis timeoutMs settledDelaySamples temps
        fuel t0 t0 i settled ≠ some false) ∧
    (∀ (t0 : ℤ) (fuel i settled : ℕ),
      preheatLoop 50 2 5000 40 (fun _ => 20) fuel t0 t0 i settled =
        none) := by
  constructor
  · intro targetTemp hysteresis timeoutMs settledDelaySamples temps t0 fuel
      i settled htm
    induction fuel generalizing i settled with
    | zero => simp [preheatLoop]
    | succ n ih =>
      simp only [preheatLoop]
      have hguard : ¬ ticks_diff t0 t0 ≥ timeoutMs := by
        rw [ticks_diff_self]; omega
      rw [if_neg hguard]
      split_ifs
      · exact ih (i + 1) 0
      · exact ih (i + 1) 0
      · exact ih (i + 1) (settled + 1)
      · simp
  · intro t0 fuel i settled
    induction fuel generalizing i settled with
    | zero => simp [preheatLoop]
    | succ n ih =>
      simp only [preheatLoop]
      have hguard : ¬ ticks_diff t0 t0 ≥ (5000 : ℤ) := by
        rw [ticks_diff_self]; omega
      rw [if_neg hguard, if_pos (by norm_num : (50 : ℚ) - 20 > 2)]
      exact ih (i + 1) 0

/-- C4 witness: at the scenario parameters (timeout 5000 ms > 0, constant
out-of-band reading 20 against target 50) three loop iterations produce no
timeout failure. -/
theorem C4_preheat_never_times_out_witness :
    preheatLoop 50 2 5000 40 (fun _ => 20) 3 0 0 0 0 ≠ some false :=
  C4_preheat_never_times_out.1 50 2 5000 40 (fun _ => 20) 0 3 0 0
    (by norm_num)



/-- C5: the sampling loop of `absorb_moisture` stops exactly when
`current_slope ≤ target_slope` or the timeout has elapsed — whenever the
stop condition holds at the loop head the loop returns immediately, and
whenever the loop returns a value there is a reached state satisfying the
stop condition whose window's most recent entry is the returned value —
and on the scenario (primed window 10, 12, 14, 16, 18 with N = 5, so
`initial_slope = 8/5`; `slope_threshold = 1/2`, so `target_slope = 4/5`;
further readings 18, 18, …) it terminates and returns the last value fed,
18. -/
theorem C5_absorb_stop_condition (targetSlope nM : ℚ)
    (timeoutTicks startTime : ℤ) (hum : ℕ → Option ℚ) (ticks : ℕ → ℤ) :
    (∀ (fuel : ℕ) (w : List (Option ℚ)) (slope : ℚ) (ct : ℤ) (i k : ℕ),
      slope ≤ targetSlope ∨ did_timeout startTime ct timeoutTicks = true →
      absorbLoop targetSlope nM timeoutTicks startTime hum ticks (fuel + 1)
        w slope ct i k = w.getLast?) ∧
    (∀ (fuel : ℕ) (w : List (Option ℚ)) (slope : ℚ) (ct : ℤ) (i k : ℕ)
      (v : Option ℚ),
      absorbLoop targetSlope nM timeoutTicks startTime hum ticks fuel w
        slope ct i k = some v →
      ∃ (w' : List (Option ℚ)) (slope' : ℚ) (ct' : ℤ),
        (slope' ≤ targetSlope ∨
          did_timeout startTime ct' timeoutTicks = true) ∧
        w'.getLast? = some v) ∧
    absorb_moisture 5 (1 / 2) 3600000 humScenario ticksScenario 10 =
      some (some 18) ∧
    get_slope 5 (primeWindow 5 humScenario) = some (8 / 5) := by
  refine ⟨?_, ?_, ?_, ?_⟩
  · intro fuel w slope ct i k hstop
    have hguard : ¬ (slope > targetSlope ∧
        did_timeout startTime ct timeoutTicks = false) := by
      rcases hstop with h | h
      · exact fun hc => absurd h (not_le.mpr hc.1)
      · exact fun hc => by rw [h] at hc; simp at hc
    simp only [absorbLoop]
    rw [if_neg hguard]
  · intro fuel
    induction fuel with
    | zero => intro w slope ct i k v h; simp [absorbLoop] at h
    | succ n ih =>
      intro w slope ct i k v h
      simp only [absorbLoop] at h
      by_cases hguard : slope > targetSlope ∧
          did_timeout startTime ct timeoutTicks = false
      · rw [if_pos hguard] at h
        cases hhum : hum i with
        | some hv =>
          simp only [hhum] at h
          cases hslope : get_slope nM (updateWindow w (some hv)) with
          | some s' =>
            simp only [hslope] at h
            exact ih _ _ _ _ _ _ h
          | none => simp only [hslope] at h; simp at h
        | none =>
          simp only [hhum] at h
          exact ih _ _ _ _ _ _ h
      · rw [if_neg hguard] at h
        refine ⟨w, slope, ct, ?_, h⟩
        rcases not_and_or.mp hguard with h' | h'
        · exact Or.inl (not_lt.mp h')
        · exact Or.inr (Bool.not_eq_false _ |>.mp h')
  · norm_num [absorb_moisture, primeWindow, humScenario, ticksScenario,
      List.range_succ, get_slope, absorbLoop, updateWindow, did_timeout,
      ticks_diff, TICKS_PERIOD]
  · norm_num [primeWindow, humScenario, List.range_succ, get_slope]

/-- C5 witness: with the scenario's target slope `4/5` and a loop entered
with current slope `4/5 ≤ 4/5`, the loop stops at once and returns the most
recent window entry, 18. -/
theorem C5_absorb_stop_condition_witness :
    absorbLoop (4 / 5) 5 3600000 0 humScenario ticksScenario 1
      [some 14, some 16, some 18, some 18, some 18] (4 / 5) 300 7 4 =
      some (some 18) := by
  have h := (C5_absorb_stop_condition (4 / 5) 5 3600000 0 humScenario
    ticksScenario).1 0 [some 14, some 16, some 18, some 18, some 18]
    (4 / 5) 300 7 4 (Or.inl le_rfl)
  simpa using h



/-- C6 counterexample: priming stores `self.humidity` without any validity
check, so a `None` reading is admitted into the window — refuting
"only valid (non-null) humidity samples are ever admitted to the window,
both while priming it and while updating it". -/
theorem C6_priming_admits_none_counterexample :
    none ∈ primeWindow 5 humBad := by
  norm_num [primeWindow, humBad, List.range_succ]

/-- C6 (amended): once primed the window always contains exactly `N`
samples (`N = _num_measurements ≥ 1`): priming yields length `N` and each
loop update preserves the length; during the *update* loop only valid
(non-null) samples are admitted (a `None` read leaves the window
untouched, a valid read drops the oldest and appends the new sample); and
the first slope is computed only on the full primed window (every window a
slope is computed on has length `N`, by the two length facts).  Priming,
however, admits the raw reading unchecked. -/
theorem C6_window_invariant (n : ℕ) (hum : ℕ → Option ℚ) (hn : 1 ≤ n) :
    (primeWindow n hum).length = n ∧
    (∀ (w : List (Option ℚ)) (h : Option ℚ), w.length = n →
      (updateWindow w h).length = n) ∧
    (∀ w : List (Option ℚ), updateWindow w none = w) ∧
    (∀ (w : List (Option ℚ)) (v : ℚ),
      updateWindow w (some v) = w.tail ++ [some v]) := by
  refine ⟨by simp [primeWindow], ?_, fun w => rfl, fun w v => rfl⟩
  intro w h hw
  cases h with
  | none => simpa [updateWindow] using hw
  | some v =>
    simp only [updateWindow, List.length_append, List.length_tail,
      List.length_cons, List.length_nil]
    omega

/-- C6 witness: at `N = 5` and the scenario's humidity stream, the primed
window has exactly 5 entries. -/
theorem C6_window_invariant_witness :
    (primeWindow 5 humScenario).length = 5 :=
  (C6_window_invariant 5 humScenario (by norm_num)).1



/-- C7: `validate_config` does raise on a missing version and on any
version other than `"1.0a"`, but it never raises for missing required
keys: the `errors` list is built and then dropped, and the config is
returned.  At the failing input (version `"1.0a"`, no `hardware` or `pid`
section) both missing-key messages are detected yet the call returns the
config instead of aborting startup. -/
theorem C7_validate_config_missing_keys_not_fatal :
    validate_config configMissingKeys = .ok configMissingKeys ∧
    requiredKeyErrors configMissingKeys =
      ["Config file is missing required key: hardware",
       "Config file is missing required key: pid"] ∧
    validate_config (.table []) =
      .error "Config file is missing a version. I won't know how to read it." ∧
    validate_config (.table [("version", .str "2.0")]) =
      .error "Config file version is not supported. I only support 1.0a." := by
  refine ⟨?_, rfl, rfl, ?_⟩
  · simp [validate_config, configMissingKeys, Toml.find, List.lookup]
    decide
  · simp [validate_config, Toml.find, List.lookup]
    decide



/-- C8 counterexample: two `cancel()` calls invoke the cleanup callback
twice, not "exactly once in total". -/
theorem C8_cancel_twice_counterexample :
    ((appFixture.cancel).cancel).cancelCallbackCalls ≠ 1 := by
  simp [MicroAppState.cancel, appFixture]

/-- C8 (amended): every `cancel()` call marks shutdown and cancels every
registered task, and invokes the cleanup callback once *per call*: after
`k + 1` calls the callback has run `k + 1` times (so at least once, but
not exactly once for `k ≥ 1`), and the foreground loop finishing after a
cancel invokes it once more. -/
theorem C8_cancel_per_call (s : MicroAppState) (k : ℕ)
    (hcb : s.hasCancelCallback = true) :
    (MicroAppState.cancel^[k + 1] s).shutdown = true ∧
    (MicroAppState.cancel^[k + 1] s).tasksCancelled =
      s.tasksCancelled.map (fun _ => true) ∧
    (MicroAppState.cancel^[k + 1] s).cancelCallbackCalls =
      s.cancelCallbackCalls + (k + 1) ∧
    (MicroAppState.mainFinish
        (MicroAppState.cancel^[k + 1] s)).cancelCallbackCalls =
      s.cancelCallbackCalls + (k + 1) + 1 := by
  induction k generalizing s with
  | zero =>
    refine ⟨rfl, rfl, ?_, ?_⟩ <;>
      simp [MicroAppState.cancel, MicroAppState.mainFinish, hcb]
  | succ m ih =>
    have hstep : MicroAppState.cancel^[m + 1 + 1] s =
        MicroAppState.cancel^[m + 1] (s.cancel) := by
      rw [Function.iterate_succ_apply]
    have hcb' : (s.cancel).hasCancelCallback = true := hcb
    obtain ⟨h1, h2, h3, h4⟩ := ih s.cancel hcb'
    refine ⟨by rw [hstep]; exact h1, ?_, ?_, ?_⟩
    · rw [hstep, h2]
      simp [MicroAppState.cancel, List.map_map, Function.comp]
    · rw [hstep, h3]
      simp [MicroAppState.cancel, hcb]
      omega
    · rw [hstep, h4]
      simp [MicroAppState.cancel, hcb]
      omega

/-- C8 witness: one `cancel()` on the built app runs the callback once
(`0 + 1` times). -/
theorem C8_cancel_per_call_witness :
    (MicroAppState.cancel^[1] appFixture).cancelCallbackCalls = 0 + 1 :=
  (C8_cancel_per_call appFixture 0 rfl).2.2.1

/-- C9 counterexample: after `shut_down()` the mode-change request `on()`
(`set_mode(ON)`) is *not* ignored — it succeeds and overwrites the
terminal mode — and the next reachable step of the still-live run loop
drives the output pin on again. -/
theorem C9_shutdown_overridden_counterexample :
    SlowCycle.set_mode (fanFixture.shut_down) .on =
      .ok ((fanFixture.shut_down).on') ∧
    ((fanFixture.shut_down).on').mode = CycleMode.on ∧
    SlowCycle.runStep ((fanFixture.shut_down).on') =
      some ({ (fanFixture.shut_down).on' with
        pinOn := true, pinState := true }, 250) := by
  refine ⟨?_, rfl, ?_⟩ <;> rfl

/-- C9 (amended): `shut_down()` immediately drives the pin off and enters
the terminal `CANCELLED` mode, and as long as the mode remains `CANCELLED`
the run loop performs no further pin action (its guard fails and the
coroutine exits); but later `on()`/`off()`/`cycle()`/`set_mode` requests
are *not* ignored — they overwrite the mode (previous theorem), after
which a run-loop step can drive the pin on again. -/
theorem C9_shutdown_drives_off (c : SlowCycle) :
    (c.shut_down).pinOn = false ∧
    (c.shut_down).mode = CycleMode.cancelled ∧
    (∀ c' : SlowCycle, c'.mode = CycleMode.cancelled →
      SlowCycle.runStep c' = none) := by
  refine ⟨rfl, rfl, ?_⟩
  intro c' h
  simp [SlowCycle.runStep, h]

/-- C9 witness: stepping the run loop right after `shut_down()` on the
recirculation fan exits without driving the pin. -/
theorem C9_shutdown_drives_off_witness :
    SlowCycle.runStep (fanFixture.shut_down) = none :=
  (C9_shutdown_drives_off fanFixture).2.2 (fanFixture.shut_down) rfl





/-- C10: passing `validate_config` is not sufficient to construct the
system: `DryBox.__init__` raises `KeyError` exactly when one of the
top-level `unsafe_temperature`, `target_humidity`, `target_temperature`
keys is missing, `Dehydrator.__init__` raises `KeyError` exactly when a
`controls` section with `timeout_s`, `sample_rate` and
`exhaust_duration_s` is missing, and a fully `validate_config`-valid
config (no missing-key errors at all) still fails both constructors. -/
theorem C10_validate_config_not_sufficient :
    (∀ config : Toml,
      exceptFails (dryBoxInitReads config) =
        ((config.find "unsafe_temperature").isNone ||
         (config.find "target_humidity").isNone ||
         (config.find "target_temperature").isNone)) ∧
    (∀ config : Toml,
      exceptFails (dehydratorInitReads config) =
        (match config.find "controls" with
         | none => true
         | some controls =>
           (controls.find "timeout_s").isNone ||
           (controls.find "sample_rate").isNone ||
           (controls.find "exhaust_duration_s").isNone)) ∧
    validate_config goodConfigFull = .ok goodConfigFull ∧
    requiredKeyErrors goodConfigFull = [] ∧
    exceptFails (dryBoxInitReads goodConfigFull) = true ∧
    exceptFails (dehydratorInitReads goodConfigFull) = true := by
  refine ⟨?_, ?_, ?_, rfl, rfl, rfl⟩
  · intro config
    simp only [dryBoxInitReads, Toml.getKey]
    cases h1 : config.find "unsafe_temperature" <;>
      cases h2 : config.find "target_humidity" <;>
        cases h3 : config.find "target_temperature" <;>
          simp [exceptFails, h1, h2, h3]
  · intro config
    simp only [dehydratorInitReads, Toml.getKey]
    cases hc : config.find "controls" with
    | none => simp [exceptFails, hc]
    | some controls =>
      cases h1 : controls.find "timeout_s" <;>
        cases h2 : controls.find "sample_rate" <;>
          cases h3 : controls.find "exhaust_duration_s" <;>
            simp [exceptFails, hc, h1, h2, h3]
  · simp [validate_config, goodConfigFull, Toml.find, List.lookup]
    decide

end Dehydrator
